import Mathlib

/-!
Verification development for the fastd-exporter snapshot-to-metric mapping
engine (`fastd-exporter.go`).  The Go data structures that are decoded from
the daemon's status socket are embedded as Lean structures, and the
`Collect` method of `PrometheusExporter` is embedded as a pure function
from the fetch result (and an abstract ASN-lookup oracle) to the list of
emitted metric samples.  Machine integers are modelled as `Int` and the
`float64` metric values as `Rat` (all values the program produces are
integer counters or divisions by 1000, which are exact over `Rat`).
-/

namespace FastdExporter

/-- `PacketStatistics` from fastd-exporter.go: `packets`/`bytes` counters. -/
structure PacketStatistics where
  packets : Int
  bytes : Int
deriving DecidableEq, Repr

/-- Go zero value of `PacketStatistics`. -/
def PacketStatistics.zero : PacketStatistics := ⟨0, 0⟩

/-- `Statistics` from fastd-exporter.go: the five counter pairs. -/
structure Statistics where
  rx : PacketStatistics
  rxReordered : PacketStatistics
  tx : PacketStatistics
  txDropped : PacketStatistics
  txError : PacketStatistics
deriving DecidableEq, Repr

/-- Go zero value of `Statistics`. -/
def Statistics.zero : Statistics :=
  ⟨PacketStatistics.zero, PacketStatistics.zero, PacketStatistics.zero,
   PacketStatistics.zero, PacketStatistics.zero⟩

/-- The anonymous `Connection` struct nested in `Peer`:
`established` (milliseconds), `method`, per-connection `statistics`. -/
structure Connection where
  established : Rat
  method : String
  statistics : Statistics
deriving DecidableEq, Repr

/-- `Peer` from fastd-exporter.go.  The nullable `*Connection` pointer is
an `Option Connection`. -/
structure Peer where
  name : String
  address : String
  iface : String
  connection : Option Connection
  mac : List String
deriving DecidableEq, Repr

/-- `Message` from fastd-exporter.go: one decoded status snapshot.  The Go
`map[string]Peer` is embedded as an association list in iteration order
(the map's iteration order is arbitrary and the sample ordering within a
cycle carries no meaning). -/
structure Message where
  uptime : Rat
  iface : String
  statistics : Statistics
  peers : List (String × Peer)
deriving DecidableEq, Repr

/-- Go zero value of `Message`, the value `data` holds in `Collect` when
`readFromStatusSocket` returns an error. -/
def Message.zero : Message := ⟨0, "", Statistics.zero, []⟩

/-- Prometheus metric kinds used by the exporter. -/
inductive MetricKind
  | gauge
  | counter
deriving DecidableEq, Repr

/-- One emitted metric sample: name, label set, numeric value, kind. -/
structure Sample where
  name : String
  labels : List (String × String)
  value : Rat
  kind : MetricKind
deriving DecidableEq, Repr

/-- First index of a character in a character list (Go `byteIndex`). -/
def idxOf : List Char → Char → Option Nat
  | [], _ => none
  | c :: cs, t => if c = t then some 0 else (idxOf cs t).map (· + 1)

/-- Last index of a character in a character list (Go `last`). -/
def lastIdxOf : List Char → Char → Option Nat
  | [], _ => none
  | c :: cs, t =>
    match lastIdxOf cs t with
    | some i => some (i + 1)
    | none => if c = t then some 0 else none

/-- Embedding of Go's `net.SplitHostPort`: splits `host:port` or
`[host]:port`, returning `none` exactly where Go returns an error
(missing port, too many colons, stray brackets). -/
def splitHostPort (hostPort : String) : Option (String × String) :=
  let cs := hostPort.data
  match lastIdxOf cs ':' with
  | none => none
  | some i =>
    if cs.head? = some '[' then
      match idxOf cs ']' with
      | none => none
      | some e =>
        if e + 1 = cs.length then none
        else if e + 1 = i then
          if (idxOf (cs.drop 1) '[').isSome then none
          else if (idxOf (cs.drop (e + 1)) ']').isSome then none
          else some (⟨(cs.drop 1).take (e - 1)⟩, ⟨cs.drop (i + 1)⟩)
        else none
    else
      let host := cs.take i
      if (idxOf host ':').isSome then none
      else if (idxOf cs '[').isSome then none
      else if (idxOf cs ']').isSome then none
      else some (⟨host⟩, ⟨cs.drop (i + 1)⟩)

/-- The host part the Collect loop works with:
`peerIp, _, _ := net.SplitHostPort(peer.Address)` with the error ignored,
so a failed split leaves the Go zero value `""`. -/
def hostOf (address : String) : String :=
  ((splitHostPort address).map Prod.fst).getD ""

/-- Address-family classification from the Collect loop: `ipAddrFamily`
starts at 6 and becomes 4 when the host part contains a dot
(`strings.Contains(peerIp, ".")`, stated over the character list). -/
def ipAddrFamilyOf (peerIp : String) : Int :=
  if peerIp.data.contains '.' then 4 else 6

/-- Modelled from the spec: the Enrichment Lookup component (§4.3) is the
external `ipisp.LookupIP` call, whose implementation is not part of this
repository; per the spec, on any failure it yields an absent/zero ASN
(`lookup` returns `none`) and the zero value 0 is used for the sample. -/
def asnValue (lookup : String → Option Int) (peerIp : String) : Int :=
  (lookup peerIp).getD 0

/-- The label set of the per-instance (aggregate) metrics: just the static
`fastd_instance` label from `NewPrometheusExporter`. -/
def staticLabels (inst : String) : List (String × String) :=
  [("fastd_instance", inst)]

/-- The label set of the per-peer metrics: the static label plus the four
dynamic labels `public_key`, `name`, `interface`, `method`. -/
def peerLabels (inst publicKey peerName interfaceName method : String) :
    List (String × String) :=
  [("fastd_instance", inst), ("public_key", publicKey), ("name", peerName),
   ("interface", interfaceName), ("method", method)]

/-- The samples one iteration of the peer loop in `Collect`
(fastd-exporter.go lines 218-264) sends on the channel, for the peer with
public key `publicKey`.  `dataInterface` is the snapshot's top-level
interface name; `lookup` is the abstract ASN lookup. -/
def peerSamples (inst : String) (lookup : String → Option Int)
    (dataInterface publicKey : String) (peer : Peer) : List Sample :=
  let method := match peer.connection with
    | some c => c.method
    | none => ""
  let interfaceName := if dataInterface = "" then peer.iface else dataInterface
  let peerIp := hostOf peer.address
  let fam := ipAddrFamilyOf peerIp
  let asn := asnValue lookup peerIp
  let ls := peerLabels inst publicKey peer.name interfaceName method
  match peer.connection with
  | none =>
    [⟨"fastd_peer_up", ls, 0, .gauge⟩]
  | some c =>
    [⟨"fastd_peer_up", ls, 1, .gauge⟩,
     ⟨"fastd_peer_uptime_seconds", ls, c.established / 1000, .gauge⟩,
     ⟨"fastd_peer_ipaddr_family", ls, (fam : Rat), .gauge⟩,
     ⟨"fastd_peer_asn", ls, (asn : Rat), .gauge⟩,
     ⟨"fastd_peer_rx_packets", ls, (c.statistics.rx.packets : Rat), .counter⟩,
     ⟨"fastd_peer_rx_bytes", ls, (c.statistics.rx.bytes : Rat), .counter⟩,
     ⟨"fastd_peer_rx_reordered_packets", ls, (c.statistics.rxReordered.packets : Rat), .counter⟩,
     ⟨"fastd_peer_rx_reordered_bytes", ls, (c.statistics.rxReordered.bytes : Rat), .counter⟩,
     ⟨"fastd_peer_tx_packets", ls, (c.statistics.tx.packets : Rat), .counter⟩,
     ⟨"fastd_peer_tx_bytes", ls, (c.statistics.tx.bytes : Rat), .counter⟩,
     ⟨"fastd_peer_tx_dropped_packets", ls, (c.statistics.txDropped.packets : Rat), .counter⟩,
     ⟨"fastd_peer_tx_dropped_bytes", ls, (c.statistics.txDropped.bytes : Rat), .counter⟩,
     ⟨"fastd_peer_tx_error_packets", ls, (c.statistics.txError.packets : Rat), .counter⟩,
     ⟨"fastd_peer_tx_error_bytes", ls, (c.statistics.txError.bytes : Rat), .counter⟩]

/-- The aggregate interface counter samples sent in `Collect`
(fastd-exporter.go lines 206-214).  Note line 213 computes the
`fastd_tx_dropped_packets` value from `data.Statistics.Tx.Count`, not
`data.Statistics.TxDropped.Count`, and no aggregate `fastd_tx_error_*`
sample is sent at all (the descriptors exist but are never used). -/
def aggregateSamples (inst : String) (stats : Statistics) : List Sample :=
  let ls := staticLabels inst
  [⟨"fastd_rx_packets", ls, (stats.rx.packets : Rat), .counter⟩,
   ⟨"fastd_rx_bytes", ls, (stats.rx.bytes : Rat), .counter⟩,
   ⟨"fastd_rx_reordered_packets", ls, (stats.rxReordered.packets : Rat), .counter⟩,
   ⟨"fastd_rx_reordered_bytes", ls, (stats.rxReordered.bytes : Rat), .counter⟩,
   ⟨"fastd_tx_packets", ls, (stats.tx.packets : Rat), .counter⟩,
   ⟨"fastd_tx_bytes", ls, (stats.tx.bytes : Rat), .counter⟩,
   ⟨"fastd_tx_dropped_packets", ls, (stats.tx.packets : Rat), .counter⟩,
   ⟨"fastd_tx_dropped_bytes", ls, (stats.txDropped.bytes : Rat), .counter⟩]

/-- The running `peersUpTotal` accumulator of the peer loop: starts at 0
and is incremented once for every peer whose `Connection` is non-nil. -/
def peersUpCount (peers : List (String × Peer)) : Nat :=
  peers.foldl (fun acc kv => if kv.2.connection.isSome then acc + 1 else acc) 0

/-- Embedding of `PrometheusExporter.Collect` (fastd-exporter.go lines
195-267).  `fetch` is the result of `readFromStatusSocket`: `none` when it
returned an error (in which case the Go `data` variable holds the zero
`Message`, and the method still falls through to the remaining sends), and
`some msg` on success. -/
def collect (inst : String) (lookup : String → Option Int)
    (fetch : Option Message) : List Sample :=
  let ls := staticLabels inst
  let upSample : Sample := match fetch with
    | none => ⟨"fastd_up", ls, 0, .gauge⟩
    | some _ => ⟨"fastd_up", ls, 1, .gauge⟩
  let data := fetch.getD Message.zero
  upSample ::
    ⟨"fastd_uptime_seconds", ls, data.uptime / 1000, .gauge⟩ ::
    (aggregateSamples inst data.statistics ++
     data.peers.flatMap (fun kv => peerSamples inst lookup data.iface kv.1 kv.2) ++
     [⟨"fastd_peers_up_total", ls, (peersUpCount data.peers : Rat), .gauge⟩])

/-- The persistent per-instance state of the exporter: `PrometheusExporter`
holds only the instance's identity (its static label / descriptors, fixed
at registration) and the status socket path; `Collect` takes it by value
and mutates nothing. -/
structure PrometheusExporter where
  instanceName : String
  statusSocketPath : String
deriving DecidableEq, Repr

/-- One collection cycle: the exporter's state going in, the state left
for the next cycle and the samples emitted. -/
def collectCycle (exporter : PrometheusExporter) (lookup : String → Option Int)
    (fetch : Option Message) : PrometheusExporter × List Sample :=
  (exporter, collect exporter.instanceName lookup fetch)

/-- The first sample with the given name, if any, projected to its value. -/
def findSampleValue (samples : List Sample) (n : String) : Option Rat :=
  (samples.find? (fun s => s.name == n)).map Sample.value

/-- Strip a literal character sequence from the front of a list, returning
the remainder on success. -/
def dropLit : List Char → List Char → Option (List Char)
  | [], cs => some cs
  | _ :: _, [] => none
  | p :: ps, c :: cs => if p = c then dropLit ps cs else none

/-- The literal part of the status-socket regular expression
`status socket "([^"]+)";` from `parseConfig`. -/
def statusSocketLit : List Char := "status socket \"".data

/-- Try to match `status socket "([^"]+)";` at the start of `cs`,
returning the captured group.  The capture `[^"]+` is the maximal nonempty
run of non-quote characters, which must be followed by `";`. -/
def matchStatusSocketAt (cs : List Char) : Option String :=
  match dropLit statusSocketLit cs with
  | none => none
  | some rest =>
    let run := rest.takeWhile (fun c => c ≠ '"')
    if run = [] then none
    else
      match rest.drop run.length with
      | '"' :: ';' :: _ => some ⟨run⟩
      | _ => none

/-- Leftmost match of the status-socket pattern (`FindSubmatch`): try each
start position left to right. -/
def findStatusSocket : List Char → Option String
  | [] => none
  | c :: cs =>
    match matchStatusSocketAt (c :: cs) with
    | some g => some g
    | none => findStatusSocket cs

/-- The three failure cases of configuration resolution, named as in the
spec's error taxonomy (§7); `parseConfig` reports them as distinct Go
errors. -/
inductive ConfigError
  | configUnreadable
  | configMissingField
  | statusChannelUnavailable
deriving DecidableEq, Repr

/-- `fastdConfig` from fastd-exporter.go. -/
structure fastdConfig where
  statusSocketPath : String
deriving DecidableEq, Repr

/-- Embedding of `parseConfig` (fastd-exporter.go lines 292-317).
`readResult` is the outcome of `ioutil.ReadFile` on the instance's
configuration file (`none` = read error) and `pathExists` is the
`os.Stat` success predicate on the filesystem. -/
def parseConfig (readResult : Option String) (pathExists : String → Bool) :
    Except ConfigError fastdConfig :=
  match readResult with
  | none => .error .configUnreadable
  | some data =>
    match findStatusSocket data.data with
    | none => .error .configMissingField
    | some statusSocketPath =>
      if pathExists statusSocketPath then .ok ⟨statusSocketPath⟩
      else .error .statusChannelUnavailable

/-- The metric names a single peer-loop iteration can emit. -/
def peerMetricNames : List String :=
  ["fastd_peer_up", "fastd_peer_uptime_seconds", "fastd_peer_ipaddr_family",
   "fastd_peer_asn", "fastd_peer_rx_packets", "fastd_peer_rx_bytes",
   "fastd_peer_rx_reordered_packets", "fastd_peer_rx_reordered_bytes",
   "fastd_peer_tx_packets", "fastd_peer_tx_bytes", "fastd_peer_tx_dropped_packets",
   "fastd_peer_tx_dropped_bytes", "fastd_peer_tx_error_packets",
   "fastd_peer_tx_error_bytes"]

/-- Concrete snapshot fixture: distinct values in every aggregate counter
field, no peers. -/
def msgFix : Message :=
  { uptime := 60000, iface := "ffda0",
    statistics :=
      { rx := ⟨1, 10⟩, rxReordered := ⟨2, 20⟩, tx := ⟨7, 70⟩,
        txDropped := ⟨3, 30⟩, txError := ⟨5, 50⟩ },
    peers := [] }

/-- Concrete connection fixture. -/
def connFix : Connection :=
  { established := 60000, method := "salsa2012+umac",
    statistics :=
      { rx := ⟨1, 10⟩, rxReordered := ⟨2, 20⟩, tx := ⟨7, 70⟩,
        txDropped := ⟨3, 30⟩, txError := ⟨5, 50⟩ } }

/-- Concrete connected-peer fixture with an IPv4 `host:port` address. -/
def peerConnFix : Peer :=
  { name := "node1", address := "203.0.113.5:10000", iface := "vpn0",
    connection := some connFix, mac := [] }

/-- Concrete disconnected-peer fixture. -/
def peerDownFix : Peer :=
  { name := "node2", address := "203.0.113.9:10001", iface := "vpn0",
    connection := none, mac := [] }

/-- Concrete connected-peer fixture whose address has a dot but no port,
so `net.SplitHostPort` fails on it. -/
def peerBareV4Fix : Peer :=
  { name := "node3", address := "1.2.3.4", iface := "vpn0",
    connection := some connFix, mac := [] }

/-- Concrete connected-peer fixture whose address fails host-port
splitting (a bare IPv6 address without brackets or port). -/
def peerBareV6Fix : Peer :=
  { name := "node4", address := "2001:db8::1", iface := "vpn0",
    connection := some connFix, mac := [] }

lemma peerSamples_name_mem (inst : String) (lookup : String → Option Int)
    (di pk : String) (peer : Peer) :
    ∀ s ∈ peerSamples inst lookup di pk peer, s.name ∈ peerMetricNames := by
  intro s hs
  cases hc : peer.connection <;> simp [peerSamples, hc] at hs
  · simp [hs, peerMetricNames]
  · rcases hs with rfl | rfl | rfl | rfl | rfl | rfl | rfl | rfl | rfl | rfl |
      rfl | rfl | rfl | rfl <;> simp [peerMetricNames]

lemma flatMap_peerSamples_find?_none (inst : String) (lookup : String → Option Int)
    (di : String) (peers : List (String × Peer)) (n : String)
    (hn : n ∉ peerMetricNames) :
    (peers.flatMap fun kv => peerSamples inst lookup di kv.1 kv.2).find?
      (fun s => s.name == n) = none := by
  rw [List.find?_eq_none]
  intro s hs
  rw [List.mem_flatMap] at hs
  obtain ⟨kv, _, hmem⟩ := hs
  have hname := peerSamples_name_mem inst lookup di kv.1 kv.2 s hmem
  simp only [beq_iff_eq]
  intro h
  exact hn (h ▸ hname)

lemma flatMap_peerSamples_filter_nil (inst : String) (lookup : String → Option Int)
    (di : String) (peers : List (String × Peer)) (p : Sample → Bool)
    (hp : ∀ s, s.name ∈ peerMetricNames → p s = false) :
    (peers.flatMap fun kv => peerSamples inst lookup di kv.1 kv.2).filter p = [] := by
  rw [List.filter_eq_nil_iff]
  intro s hs
  rw [List.mem_flatMap] at hs
  obtain ⟨kv, _, hmem⟩ := hs
  simp [hp s (peerSamples_name_mem inst lookup di kv.1 kv.2 s hmem)]

lemma peersUpCount_eq_countP (peers : List (String × Peer)) :
    peersUpCount peers = peers.countP fun kv => kv.2.connection.isSome := by
  have h : ∀ (l : List (String × Peer)) (acc : Nat),
      l.foldl (fun acc kv => if kv.2.connection.isSome then acc + 1 else acc) acc
        = acc + l.countP fun kv => kv.2.connection.isSome := by
    intro l
    induction l with
    | nil => intro acc; simp
    | cons a t ih =>
      intro acc
      by_cases hc : a.2.connection.isSome
      · simp [List.countP_cons, hc, ih]
        omega
      · simp [List.countP_cons, hc, ih]
  simpa [peersUpCount] using h peers 0

lemma peerSamples_map_name_lookup (inst : String) (l₁ l₂ : String → Option Int)
    (di pk : String) (peer : Peer) :
    (peerSamples inst l₁ di pk peer).map Sample.name
      = (peerSamples inst l₂ di pk peer).map Sample.name := by
  cases hc : peer.connection <;> simp [peerSamples, hc]

lemma collect_map_name_lookup (inst : String) (l₁ l₂ : String → Option Int)
    (fetch : Option Message) :
    (collect inst l₁ fetch).map Sample.name
      = (collect inst l₂ fetch).map Sample.name := by
  have hp : ∀ (di : String) (peers : List (String × Peer)),
      (peers.flatMap fun kv => peerSamples inst l₁ di kv.1 kv.2).map Sample.name
        = (peers.flatMap fun kv => peerSamples inst l₂ di kv.1 kv.2).map Sample.name := by
    intro di peers
    induction peers with
    | nil => rfl
    | cons a t ih =>
      simp [List.flatMap_cons, ih, peerSamples_map_name_lookup inst l₁ l₂ di a.1 a.2]
  cases fetch <;> simp [collect, hp]

/-- Claim C1: the claim says a failed-fetch cycle emits exactly the single
`up=0` sample.  The code instead falls through after sending `up=0` and
emits `uptime_seconds`, all eight aggregate counter samples and
`peers_up_total`, all computed from the zero-value `Message` — zero-valued
stand-ins, eleven samples in total. -/
theorem C1_fetch_failure_emits_zero_stand_ins :
    (collect "dom0" (fun _ => none) none).map Sample.name =
      ["fastd_up", "fastd_uptime_seconds", "fastd_rx_packets", "fastd_rx_bytes",
       "fastd_rx_reordered_packets", "fastd_rx_reordered_bytes", "fastd_tx_packets",
       "fastd_tx_bytes", "fastd_tx_dropped_packets", "fastd_tx_dropped_bytes",
       "fastd_peers_up_total"] ∧
    (collect "dom0" (fun _ => none) none).map Sample.value =
      [0, 0, 0, 0, 0, 0, 0, 0, 0, 0, 0] := by
  refine ⟨rfl, ?_⟩
  simp [collect, Message.zero, Statistics.zero, PacketStatistics.zero,
    aggregateSamples, staticLabels, peersUpCount]

/-- Claim C2: the claim says the `tx_dropped_packets` sample carries the
snapshot's `statistics.tx_dropped.packets` value.  The code (line 213)
computes it from `statistics.tx.packets` instead: on a snapshot with
`tx.packets = 7` and `tx_dropped.packets = 3` the emitted value is 7. -/
theorem C2_txDropped_packets_uses_tx :
    msgFix.statistics.tx.packets = 7 ∧
    msgFix.statistics.txDropped.packets = 3 ∧
    findSampleValue (collect "dom0" (fun _ => none) (some msgFix))
      "fastd_tx_dropped_packets" = some 7 :=
  ⟨rfl, rfl, rfl⟩

/-- Claim C3: a failed ASN lookup for a peer never aborts the cycle: the
connected peer still emits its full 14-sample set with the ASN sample at
the zero value, and the set of sample names a cycle emits does not depend
on the lookup at all. -/
theorem C3_enrichment_failure_harmless
    (inst di pk : String) (peer : Peer) (c : Connection)
    (lookup : String → Option Int)
    (hconn : peer.connection = some c)
    (hfail : lookup (hostOf peer.address) = none) :
    findSampleValue (peerSamples inst lookup di pk peer) "fastd_peer_asn" = some 0 ∧
    (peerSamples inst lookup di pk peer).length = 14 ∧
    ∀ (lookup₂ : String → Option Int) (fetch : Option Message),
      (collect inst lookup fetch).map Sample.name
        = (collect inst lookup₂ fetch).map Sample.name := by
  refine ⟨?_, ?_, fun lookup₂ fetch => collect_map_name_lookup inst lookup lookup₂ fetch⟩
  · simp [peerSamples, hconn, findSampleValue, asnValue, hfail]
  · simp [peerSamples, hconn]

/-- Witness for C3 at a concrete connected peer and an always-failing
lookup. -/
theorem C3_witness :
    findSampleValue (peerSamples "dom0" (fun _ => none) "ffda0" "pk1" peerConnFix)
      "fastd_peer_asn" = some 0 ∧
    (peerSamples "dom0" (fun _ => none) "ffda0" "pk1" peerConnFix).length = 14 := by
  have h := C3_enrichment_failure_harmless "dom0" "ffda0" "pk1" peerConnFix connFix
    (fun _ => none) rfl rfl
  exact ⟨h.1, h.2.1⟩

/-- Claim C4: the claim says the aggregate `tx_error_packets` and
`tx_error_bytes` samples are emitted with the snapshot's
`statistics.tx_error` counters.  `Collect` never sends these two samples
(the descriptors exist but are unused): for every successfully fetched
snapshot the emitted set contains no sample with either name. -/
theorem C4_no_aggregate_tx_error_samples (inst : String)
    (lookup : String → Option Int) (msg : Message) :
    (collect inst lookup (some msg)).filter
      (fun s => s.name == "fastd_tx_error_packets" ||
        s.name == "fastd_tx_error_bytes") = [] := by
  have hflat := flatMap_peerSamples_filter_nil inst lookup msg.iface msg.peers
    (fun s => s.name == "fastd_tx_error_packets" || s.name == "fastd_tx_error_bytes")
    (by intro s hs
        simp only [peerMetricNames, List.mem_cons, List.not_mem_nil, or_false] at hs
        rcases hs with h | h | h | h | h | h | h | h | h | h | h | h | h | h <;> simp [h])
  simp [collect, aggregateSamples, staticLabels, List.filter_append, hflat]

/-- Claim C5: `peers_up_total` equals the number of peers in the current
snapshot whose connection record is non-null, for any snapshot including
the empty-peers one. -/
theorem C5_peers_up_total (inst : String) (lookup : String → Option Int)
    (msg : Message) :
    findSampleValue (collect inst lookup (some msg)) "fastd_peers_up_total"
      = some ((msg.peers.countP fun kv => kv.2.connection.isSome : Nat) : Rat) := by
  have hflat := flatMap_peerSamples_find?_none inst lookup msg.iface msg.peers
    "fastd_peers_up_total" (by decide)
  simp [findSampleValue, collect, aggregateSamples, staticLabels,
    List.find?_append, hflat, peersUpCount_eq_countP]

/-- Per §4.4 of the spec: a disconnected peer contributes only its
liveness sample with value 0 (`method` already folded into the label
set `ls`, which the claim requires to carry the empty method). -/
def specDisconnectedPeerSamples (ls : List (String × String)) : List Sample :=
  [⟨"fastd_peer_up", ls, 0, .gauge⟩]

/-- Per §4.4 of the spec: a connected peer emits liveness 1, session
uptime in seconds, the address-family indicator, the resolved ASN, and
the full per-connection statistics block (ten packet/byte counters). -/
def specConnectedPeerSamples (ls : List (String × String)) (c : Connection)
    (fam asn : Int) : List Sample :=
  [⟨"fastd_peer_up", ls, 1, .gauge⟩,
   ⟨"fastd_peer_uptime_seconds", ls, c.established / 1000, .gauge⟩,
   ⟨"fastd_peer_ipaddr_family", ls, (fam : Rat), .gauge⟩,
   ⟨"fastd_peer_asn", ls, (asn : Rat), .gauge⟩,
   ⟨"fastd_peer_rx_packets", ls, (c.statistics.rx.packets : Rat), .counter⟩,
   ⟨"fastd_peer_rx_bytes", ls, (c.statistics.rx.bytes : Rat), .counter⟩,
   ⟨"fastd_peer_rx_reordered_packets", ls, (c.statistics.rxReordered.packets : Rat), .counter⟩,
   ⟨"fastd_peer_rx_reordered_bytes", ls, (c.statistics.rxReordered.bytes : Rat), .counter⟩,
   ⟨"fastd_peer_tx_packets", ls, (c.statistics.tx.packets : Rat), .counter⟩,
   ⟨"fastd_peer_tx_bytes", ls, (c.statistics.tx.bytes : Rat), .counter⟩,
   ⟨"fastd_peer_tx_dropped_packets", ls, (c.statistics.txDropped.packets : Rat), .counter⟩,
   ⟨"fastd_peer_tx_dropped_bytes", ls, (c.statistics.txDropped.bytes : Rat), .counter⟩,
   ⟨"fastd_peer_tx_error_packets", ls, (c.statistics.txError.packets : Rat), .counter⟩,
   ⟨"fastd_peer_tx_error_bytes", ls, (c.statistics.txError.bytes : Rat), .counter⟩]

/-- Claim C6: a disconnected peer emits exactly the single liveness sample
with value 0 and empty method label, and a connected peer emits the
liveness sample with value 1 together with the full per-connection set
(session uptime, address family, ASN, and the ten per-connection
counters), as described in §4.4 of the spec. -/
theorem C6_peer_dichotomy (inst : String) (lookup : String → Option Int)
    (di pk : String) (peer : Peer) :
    (peer.connection = none →
      peerSamples inst lookup di pk peer =
        specDisconnectedPeerSamples
          (peerLabels inst pk peer.name (if di = "" then peer.iface else di) "")) ∧
    (∀ c, peer.connection = some c →
      peerSamples inst lookup di pk peer =
        specConnectedPeerSamples
          (peerLabels inst pk peer.name (if di = "" then peer.iface else di) c.method)
          c (ipAddrFamilyOf (hostOf peer.address))
          (asnValue lookup (hostOf peer.address))) := by
  constructor
  · intro h
    simp [peerSamples, h, specDisconnectedPeerSamples]
  · intro c h
    simp [peerSamples, h, specConnectedPeerSamples]

/-- Witness for C6 at a concrete disconnected peer and a concrete
connected peer. -/
theorem C6_witness :
    peerSamples "dom0" (fun _ => some 64475) "ffda0" "pk2" peerDownFix =
      specDisconnectedPeerSamples (peerLabels "dom0" "pk2" "node2" "ffda0" "") ∧
    peerSamples "dom0" (fun _ => some 64475) "ffda0" "pk1" peerConnFix =
      specConnectedPeerSamples
        (peerLabels "dom0" "pk1" "node1" "ffda0" "salsa2012+umac") connFix 4 64475 := by
  constructor
  · exact (C6_peer_dichotomy "dom0" (fun _ => some 64475) "ffda0" "pk2" peerDownFix).1 rfl
  · exact (C6_peer_dichotomy "dom0" (fun _ => some 64475) "ffda0" "pk1" peerConnFix).2
      connFix rfl

/-- Claim C7 counterexample: the claim says any address containing a dot
classifies as family 4, but the code classifies on the host part returned
by `net.SplitHostPort`, which is the zero value `""` when splitting fails.
The bare address "1.2.3.4" (no port) contains a dot yet is classified 6. -/
theorem C7_counterexample :
    ("1.2.3.4".data.contains '.') = true ∧
    peerBareV4Fix.address = "1.2.3.4" ∧
    findSampleValue
      (peerSamples "dom0" (fun _ => none) "ffda0" "pk3" peerBareV4Fix)
      "fastd_peer_ipaddr_family" = some 6 ∧
    ¬ findSampleValue
        (peerSamples "dom0" (fun _ => none) "ffda0" "pk3" peerBareV4Fix)
        "fastd_peer_ipaddr_family" = some 4 := by
  have h : findSampleValue
      (peerSamples "dom0" (fun _ => none) "ffda0" "pk3" peerBareV4Fix)
      "fastd_peer_ipaddr_family" = some 6 := rfl
  refine ⟨rfl, rfl, h, ?_⟩
  rw [h]
  intro hh
  rw [Option.some.injEq] at hh
  norm_num at hh

/-- Claim C7 as amended: the family sample of a connected peer is 4 when
the host part extracted by host-port splitting contains a dot and 6
otherwise; when splitting fails (e.g. a bare address without a port) the
host is the empty string, so the family defaults to 6; the classification
is total and never aborts the cycle. -/
theorem C7_amended_family (inst di pk : String) (lookup : String → Option Int)
    (peer : Peer) (c : Connection) (h : peer.connection = some c) :
    findSampleValue (peerSamples inst lookup di pk peer) "fastd_peer_ipaddr_family"
      = some ((ipAddrFamilyOf (hostOf peer.address) : Int) : Rat) ∧
    ((hostOf peer.address).data.contains '.' = true →
      findSampleValue (peerSamples inst lookup di pk peer)
        "fastd_peer_ipaddr_family" = some 4) ∧
    ((hostOf peer.address).data.contains '.' = false →
      findSampleValue (peerSamples inst lookup di pk peer)
        "fastd_peer_ipaddr_family" = some 6) ∧
    (splitHostPort peer.address = none →
      findSampleValue (peerSamples inst lookup di pk peer)
        "fastd_peer_ipaddr_family" = some 6) := by
  have hbase : findSampleValue (peerSamples inst lookup di pk peer)
      "fastd_peer_ipaddr_family"
      = some ((ipAddrFamilyOf (hostOf peer.address) : Int) : Rat) := by
    simp [peerSamples, h, findSampleValue]
  refine ⟨hbase, ?_, ?_, ?_⟩
  · intro hdot
    rw [hbase]
    simp only [ipAddrFamilyOf, hdot]
    norm_num
  · intro hdot
    rw [hbase]
    simp only [ipAddrFamilyOf, hdot]
    norm_num
  · intro hsplit
    have hhost : hostOf peer.address = "" := by simp [hostOf, hsplit]
    have hdot : (hostOf peer.address).data.contains '.' = false := by
      rw [hhost]
      rfl
    rw [hbase]
    simp only [ipAddrFamilyOf, hdot]
    norm_num

/-- Witness for C7 as amended: a connected peer with a dotted `host:port`
address gets family 4, and one with a bare (unsplittable) IPv6 address
gets family 6. -/
theorem C7_witness :
    findSampleValue (peerSamples "dom0" (fun _ => none) "ffda0" "pk1" peerConnFix)
      "fastd_peer_ipaddr_family" = some 4 ∧
    findSampleValue (peerSamples "dom0" (fun _ => none) "ffda0" "pk4" peerBareV6Fix)
      "fastd_peer_ipaddr_family" = some 6 := by
  constructor
  · exact (C7_amended_family "dom0" "ffda0" "pk1" (fun _ => none)
      peerConnFix connFix rfl).2.1 rfl
  · exact (C7_amended_family "dom0" "ffda0" "pk4" (fun _ => none)
      peerBareV6Fix connFix rfl).2.2.2 rfl

/-- Claim C8: in a successfully fetched cycle the `up` sample is emitted
with value 1 and the `uptime_seconds` sample equals the snapshot's uptime
divided by 1000. -/
theorem C8_up_and_uptime (inst : String) (lookup : String → Option Int)
    (msg : Message) :
    findSampleValue (collect inst lookup (some msg)) "fastd_up" = some 1 ∧
    findSampleValue (collect inst lookup (some msg)) "fastd_uptime_seconds"
      = some (msg.uptime / 1000) :=
  ⟨rfl, rfl⟩

/-- Claim C9: configuration resolution fails in exactly the three distinct
cases (file unreadable, no status-socket declaration, extracted socket
path absent from the filesystem), and otherwise returns the extracted
status-socket path. -/
theorem C9_parseConfig_cases (readResult : Option String)
    (pathExists : String → Bool) :
    (readResult = none →
      parseConfig readResult pathExists = .error .configUnreadable) ∧
    (∀ d, readResult = some d → findStatusSocket d.data = none →
      parseConfig readResult pathExists = .error .configMissingField) ∧
    (∀ d p, readResult = some d → findStatusSocket d.data = some p →
      pathExists p = false →
      parseConfig readResult pathExists = .error .statusChannelUnavailable) ∧
    (∀ d p, readResult = some d → findStatusSocket d.data = some p →
      pathExists p = true →
      parseConfig readResult pathExists = .ok ⟨p⟩) := by
  refine ⟨?_, ?_, ?_, ?_⟩ <;> intros <;> subst_vars <;> simp [parseConfig, *]

/-- Witness for C9 exercising all four outcomes at concrete inputs. -/
theorem C9_witness :
    parseConfig (some "status socket \"/run/fastd.sock\";")
      (fun p => p == "/run/fastd.sock") = .ok ⟨"/run/fastd.sock"⟩ ∧
    parseConfig none (fun _ => true) = .error .configUnreadable ∧
    parseConfig (some "secret \"x\";") (fun _ => true)
      = .error .configMissingField ∧
    parseConfig (some "status socket \"/run/fastd.sock\";") (fun _ => false)
      = .error .statusChannelUnavailable := by
  refine ⟨?_, ?_, ?_, ?_⟩
  · exact (C9_parseConfig_cases _ _).2.2.2 _ "/run/fastd.sock" rfl rfl rfl
  · exact (C9_parseConfig_cases _ _).1 rfl
  · exact (C9_parseConfig_cases _ _).2.1 _ rfl rfl
  · exact (C9_parseConfig_cases _ _).2.2.1 _ "/run/fastd.sock" rfl rfl rfl

/-- Claim C10: one collection cycle leaves the exporter's per-instance
state unchanged, and a second cycle run from that state on the same
snapshot (with the lookup held fixed) emits exactly the same samples: the
mapping is a pure function of the snapshot with no cycle-to-cycle
state. -/
theorem C10_mapping_pure (exporter : PrometheusExporter)
    (lookup : String → Option Int) (fetch : Option Message) :
    (collectCycle exporter lookup fetch).1 = exporter ∧
    (collectCycle (collectCycle exporter lookup fetch).1 lookup fetch).2
      = (collectCycle exporter lookup fetch).2 :=
  ⟨rfl, rfl⟩

end FastdExporter
